import Mathlib

/-!
Verification of the Conversation Memory Governor of the GAIA
question-answering agent repository.

The governor lives in `src/functions/agent_helper_functions.py`
(`step_memory_cap`, `summarize_old_messages`) with a near-identical second
copy in `src/functions/agent.py`; the shipped threshold constant
`TOKEN_LIMITER = 5000` lives in `src/configuration.py`.

Shallow embedding conventions:
- A smolagents `ActionStep` is modelled by `Step` with the three fields the
  governor touches: `step_number`, `model_input_messages`, `token_usage`
  (`token_usage` is `Option Nat` since the Python attribute may be `None`,
  in which case `.total_tokens` raises `AttributeError`).
- Role-tagged messages are `Message` records whose `content` is the list of
  `{type, text}` dictionaries the code builds.
- Python list indexing `xs[i]` / `xs[-1]` is `pyIndex` / `pyLast`, raising
  `IndexError` (as an `Except.error`) exactly where CPython would.
- The external world seen by `summarize_old_messages` (environment variable
  lookup, `client.models.list().data`, `client.chat.completions.create`) is
  an explicit `SummarizerEnv` record: each field is the outcome of the
  corresponding external interaction (`Except.error` = the Python call
  raised).  The message payload only shapes the request body, never which
  outcome the external service produces, so it does not appear in the env.
- Fallible code returns `Except String α`; an escaping Python exception is
  `Except.error msg`.
-/

/-- One `{"type": ..., "text": ...}` entry of a message content list. -/
structure ContentItem where
  type : String
  text : String
deriving DecidableEq, Repr

/-- One role-tagged model-input message (a Python dict with `role` and
`content`). -/
structure Message where
  role : String
  content : List ContentItem
deriving DecidableEq, Repr

/-- The fields of a smolagents `ActionStep` that `step_memory_cap` reads or
writes: `step_number`, `model_input_messages`, and
`token_usage.total_tokens` (absent when `token_usage` is `None`). -/
structure Step where
  step_number : Nat
  model_input_messages : List Message
  token_usage : Option Nat
deriving DecidableEq, Repr

/-- Python `xs[i]` for `i ≥ 0`: the element, or an `IndexError`. -/
def pyIndex (xs : List α) (i : Nat) : Except String α :=
  match xs.get? i with
  | some x => Except.ok x
  | none => Except.error "IndexError: list index out of range"

/-- Python `xs[-1]`: the last element, or an `IndexError` on the empty
list. -/
def pyLast (xs : List α) : Except String α :=
  match xs.getLast? with
  | some x => Except.ok x
  | none => Except.error "IndexError: list index out of range"

/-- The synthetic user message built on the summarization path: a dict
with role `MessageRole.USER` (the string "user") and content a single
text item reading "Here is a summary of your investigation so far: "
followed by the summary. -/
def summaryMessage (summary : String) : Message :=
  { role := "user",
    content := [{ type := "text",
                  text := "Here is a summary of your investigation so far: " ++ summary }] }

/-- Outcomes of the external interactions performed by
`summarize_old_messages`, in program order:
- `modal_api_key`: the MODAL_API_KEY entry of `os.environ` (`none` =
  unset, raising `KeyError`);
- `models_list`: `client.models.list().data` as the list of model ids
  (`Except.error` = the HTTP call raised, e.g. a transport or auth error);
- `chat_completion`: `client.chat.completions.create(...)`, abstracted to
  the text of its first choice message (`Except.error` = the call raised).
-/
structure SummarizerEnv where
  modal_api_key : Option String
  models_list : Except String (List String)
  chat_completion : Except String String
deriving Repr

/-- Model of `summarize_old_messages` in
`src/functions/agent_helper_functions.py` (lines 92-131).  Only the `client.chat.completions.create` call sits inside
the `try`/`except`; the API-key lookup, `client.models.list()` and the
`data[0]` roster indexing happen before it, unguarded.  On a caught
completion error the function logs and returns `None` (here
`Except.ok none`); on success it returns the first choice text. -/
def summarize_old_messages (env : SummarizerEnv) (messages : List Message) :
    Except String (Option String) :=
  match env.modal_api_key with
  | none => Except.error "KeyError: MODAL_API_KEY"
  | some _api_key =>
    match env.models_list with
    | Except.error e => Except.error e
    | Except.ok models =>
      match pyIndex models 0 with
      | Except.error e => Except.error e
      | Except.ok _model_id =>
        match env.chat_completion with
        | Except.ok content => Except.ok (some content)
        | Except.error _ => Except.ok none

/-- The unconditional trimming phase of `step_memory_cap`
(`src/functions/agent_helper_functions.py` lines 51-56):

    task_step = agent.memory.steps[0]
    planning_step = agent.memory.steps[1]
    latest_step = agent.memory.steps[-1]
    if len(agent.memory.steps) > 2:
        agent.memory.steps = [task_step, planning_step, latest_step]

The three indexings run before the length test, so a history shorter than
two steps raises `IndexError`. -/
def trim_steps (steps : List Step) : Except String (List Step) :=
  match pyIndex steps 0 with
  | Except.error e => Except.error e
  | Except.ok task_step =>
    match pyIndex steps 1 with
    | Except.error e => Except.error e
    | Except.ok planning_step =>
      match pyLast steps with
      | Except.error e => Except.error e
      | Except.ok latest_step =>
        if steps.length > 2 then Except.ok [task_step, planning_step, latest_step]
        else Except.ok steps

/-- Model of `step_memory_cap` in `src/functions/agent_helper_functions.py`
(lines 48-89), parametrized by the threshold it reads from
`configuration.TOKEN_LIMITER`.  After trimming it reads
`steps[-1].token_usage.total_tokens` (an `AttributeError` when
`token_usage` is `None`); above the threshold it calls the summarizer on
`steps[-1].model_input_messages[1:]` with no surrounding `try`, and when a
summary is returned (including the empty string — only `None` is filtered
by `if summary is not None`) it rebuilds
`[steps[-1].model_input_messages[0], summary message]`, keeps only
`steps[0]` and overwrites the `model_input_messages` of that step in place.
Logging calls are pure observation and are omitted. -/
def step_memory_cap (token_limit : Nat) (env : SummarizerEnv) (steps : List Step) :
    Except String (List Step) :=
  match trim_steps steps with
  | Except.error e => Except.error e
  | Except.ok steps1 =>
    match pyLast steps1 with
    | Except.error e => Except.error e
    | Except.ok latest =>
      match latest.token_usage with
      | none => Except.error "AttributeError: NoneType has no attribute total_tokens"
      | some token_usage =>
        if token_usage > token_limit then
          match summarize_old_messages env (latest.model_input_messages.drop 1) with
          | Except.error e => Except.error e
          | Except.ok (some summary) =>
            match pyIndex latest.model_input_messages 0 with
            | Except.error e => Except.error e
            | Except.ok first_message =>
              match pyIndex steps1 0 with
              | Except.error e => Except.error e
              | Except.ok step0 =>
                Except.ok
                  [{ step0 with model_input_messages := [first_message, summaryMessage summary] }]
          | Except.ok none => Except.ok steps1
        else Except.ok steps1

/-- Constant `TOKEN_LIMITER = 5000` from `src/configuration.py` line 42. -/
def TOKEN_LIMITER : Nat := 5000

namespace AgentPy

/-- Model of `summarize_old_messages` in `src/functions/agent.py`
(lines 94-141):
line-for-line the same control flow as the helper-module copy (the two
differ only in the literal text of the system prompt, which shapes the
request body, not the modelled outcome). -/
def summarize_old_messages (env : SummarizerEnv) (messages : List Message) :
    Except String (Option String) :=
  match env.modal_api_key with
  | none => Except.error "KeyError: MODAL_API_KEY"
  | some _api_key =>
    match env.models_list with
    | Except.error e => Except.error e
    | Except.ok models =>
      match pyIndex models 0 with
      | Except.error e => Except.error e
      | Except.ok _model_id =>
        match env.chat_completion with
        | Except.ok content => Except.ok (some content)
        | Except.error _ => Except.ok none

/-- Model of `step_memory_cap` in `src/functions/agent.py` (lines 53-91),
transcribed independently with the trim phase inline, parametrized by the
threshold that the file hardcodes as the literal `50000`. -/
def step_memory_cap (token_limit : Nat) (env : SummarizerEnv) (steps : List Step) :
    Except String (List Step) :=
  match pyIndex steps 0 with
  | Except.error e => Except.error e
  | Except.ok task_step =>
    match pyIndex steps 1 with
    | Except.error e => Except.error e
    | Except.ok planning_step =>
      match pyLast steps with
      | Except.error e => Except.error e
      | Except.ok latest_step =>
        let steps1 :=
          if steps.length > 2 then [task_step, planning_step, latest_step] else steps
        match pyLast steps1 with
        | Except.error e => Except.error e
        | Except.ok latest =>
          match latest.token_usage with
          | none => Except.error "AttributeError: NoneType has no attribute total_tokens"
          | some token_usage =>
            if token_usage > token_limit then
              match AgentPy.summarize_old_messages env (latest.model_input_messages.drop 1) with
              | Except.error e => Except.error e
              | Except.ok (some summary) =>
                match pyIndex latest.model_input_messages 0 with
                | Except.error e => Except.error e
                | Except.ok first_message =>
                  match pyIndex steps1 0 with
                  | Except.error e => Except.error e
                  | Except.ok step0 =>
                    Except.ok
                      [{ step0 with
                          model_input_messages := [first_message, summaryMessage summary] }]
              | Except.ok none => Except.ok steps1
            else Except.ok steps1

end AgentPy

/-- The value of the trimming phase on a well-formed history (at least a
task step and a planning step): keep the history when it has at most one
further step, else collapse to first, second, last. -/
def trimmedList (t p : Step) (rest : List Step) : List Step :=
  match rest.getLast? with
  | none => [t, p]
  | some l => [t, p, l]

/-- A single-content-item message, as all messages built by this code are. -/
def sampleMsg (role text : String) : Message :=
  { role := role, content := [{ type := "text", text := text }] }

/-- Sample task step (history index 0). -/
def taskStep : Step := ⟨0, [sampleMsg "user" "task"], some 100⟩

/-- Sample planning step (history index 1). -/
def planStep : Step := ⟨1, [sampleMsg "assistant" "plan"], some 200⟩

/-- Sample latest step whose token usage 6000 exceeds the shipped
`TOKEN_LIMITER = 5000` but not the 50000 of `agent.py`. -/
def bigStep : Step :=
  ⟨5, [sampleMsg "system" "preamble", sampleMsg "user" "observation"], some 6000⟩

/-- Sample latest step whose token usage 1000 is below both thresholds. -/
def smallStep : Step :=
  ⟨5, [sampleMsg "system" "preamble", sampleMsg "user" "observation"], some 1000⟩

/-- Environment in which every external call of the summarizer succeeds and
the completion text is `s`. -/
def okEnv (s : String) : SummarizerEnv :=
  ⟨some "key", Except.ok ["model-a"], Except.ok s⟩

/-- Environment in which only the `chat.completions.create` call fails —
the one failure the source wraps in `try`/`except`. -/
def completionErrorEnv : SummarizerEnv :=
  ⟨some "key", Except.ok ["model-a"], Except.error "APITimeoutError"⟩

/-- Environment in which `client.models.list()` raises (endpoint
unreachable); this call is **not** inside the `try`/`except`. -/
def rosterErrorEnv : SummarizerEnv :=
  ⟨some "key", Except.error "APIConnectionError", Except.ok "S"⟩

/-- Environment in which the endpoint reports an empty model roster, so
`client.models.list().data[0]` raises `IndexError` outside the
`try`/`except`. -/
def emptyRosterEnv : SummarizerEnv :=
  ⟨some "key", Except.ok [], Except.ok "S"⟩

theorem exists_getLast?_cons (a : α) (tail : List α) :
    ∃ l, (a :: tail).getLast? = some l := by
  induction tail generalizing a with
  | nil => exact ⟨a, rfl⟩
  | cons b bs ih =>
    obtain ⟨l, hl⟩ := ih b
    exact ⟨l, by rw [List.getLast?_cons_cons]; exact hl⟩

theorem trim_steps_eq (t p : Step) (rest : List Step) :
    trim_steps (t :: p :: rest) = Except.ok (trimmedList t p rest) := by
  cases rest with
  | nil => rfl
  | cons r rs =>
    obtain ⟨l, hl⟩ := exists_getLast?_cons r rs
    simp [trim_steps, trimmedList, pyIndex, pyLast, hl, List.getLast?_cons_cons,
      Nat.succ_lt_succ, List.length_cons]

theorem trimmedList_head (t p : Step) (rest : List Step) :
    (trimmedList t p rest).get? 0 = some t := by
  cases h : rest.getLast? <;> simp [trimmedList, h]

theorem trimmedList_ne_nil (t p : Step) (rest : List Step) :
    trimmedList t p rest ≠ [] := by
  cases h : rest.getLast? <;> simp [trimmedList, h]

theorem pyIndex_trimmedList_zero (t p : Step) (rest : List Step) :
    pyIndex (trimmedList t p rest) 0 = Except.ok t := by
  cases h : rest.getLast? <;> simp [trimmedList, h, pyIndex]

theorem trimmedList_getLast? (t p : Step) (rest : List Step) :
    (trimmedList t p rest).getLast? = (t :: p :: rest).getLast? := by
  cases rest with
  | nil => rfl
  | cons r rs =>
    obtain ⟨l, hl⟩ := exists_getLast?_cons r rs
    simp [trimmedList, hl, List.getLast?_cons_cons]

theorem pyLast_trimmedList (t p : Step) (rest : List Step) (l : Step)
    (hl : (t :: p :: rest).getLast? = some l) :
    pyLast (trimmedList t p rest) = Except.ok l := by
  rw [pyLast, trimmedList_getLast?, hl]

/-- Claim C3: for every step history of length N > 3 with first element T,
second element P and last element L, the trimming step produces exactly
`[T, P, L]` — order preserved, length 3, everything in between
discarded. -/
theorem C3_trim_collapse (steps : List Step) (t p l : Step)
    (hlen : steps.length > 3)
    (ht : steps.get? 0 = some t) (hp : steps.get? 1 = some p)
    (hl : steps.getLast? = some l) :
    trim_steps steps = Except.ok [t, p, l] := by
  cases steps with
  | nil => simp at hlen
  | cons a tail =>
    cases tail with
    | nil => simp at hlen
    | cons b rest =>
      have hta : t = a := by
        have : some a = some t := ht
        exact (Option.some.inj this).symm
      have hpb : p = b := by
        have : some b = some p := hp
        exact (Option.some.inj this).symm
      subst hta; subst hpb
      rw [trim_steps_eq]
      cases rest with
      | nil => simp at hlen
      | cons c rs =>
        have hlast : (c :: rs).getLast? = some l := by
          rw [List.getLast?_cons_cons, List.getLast?_cons_cons] at hl
          exact hl
        simp [trimmedList, hlast]

theorem C3_witness :
    trim_steps [taskStep, planStep, smallStep, bigStep] =
      Except.ok [taskStep, planStep, bigStep] :=
  C3_trim_collapse [taskStep, planStep, smallStep, bigStep] taskStep planStep bigStep
    (by decide) rfl rfl rfl

/-- Claim C4 (amended): for every step history of length between 2 and 3,
the trimming step leaves it unchanged.  (As literally stated over *every*
history of length ≤ 3 the claim fails: with fewer than two steps the code
raises `IndexError` at `steps[0]`/`steps[1]` before the length test, see
`C4_counterexample`.) -/
theorem C4_trim_noop (steps : List Step) (h2 : 2 ≤ steps.length)
    (h3 : steps.length ≤ 3) :
    trim_steps steps = Except.ok steps := by
  cases steps with
  | nil => simp at h2
  | cons a tail =>
    cases tail with
    | nil => simp at h2
    | cons b rest =>
      cases rest with
      | nil => rfl
      | cons c rs =>
        cases rs with
        | nil => rfl
        | cons d rs2 => simp [List.length_cons] at h3

/-- Claim C4 counterexample: a history of a single step has length ≤ 3, yet
the trim step does not return it unchanged — it raises `IndexError` (the
code reads `steps[1]` before checking the length). -/
theorem C4_counterexample :
    ([⟨0, [], none⟩] : List Step).length ≤ 3 ∧
      trim_steps [⟨0, [], none⟩] ≠ Except.ok [⟨0, [], none⟩] := by
  refine ⟨by decide, fun h => ?_⟩
  have herr : trim_steps [(⟨0, [], none⟩ : Step)] =
      Except.error "IndexError: list index out of range" := rfl
  rw [herr] at h
  exact Except.noConfusion h

theorem C4_witness :
    trim_steps [taskStep, planStep] = Except.ok [taskStep, planStep] :=
  C4_trim_noop [taskStep, planStep] (by decide) (by decide)

theorem summarize_ok_some (env : SummarizerEnv) (messages : List Message)
    (k mo s : String) (mos : List String)
    (hk : env.modal_api_key = some k) (hm : env.models_list = Except.ok (mo :: mos))
    (hc : env.chat_completion = Except.ok s) :
    summarize_old_messages env messages = Except.ok (some s) := by
  simp [summarize_old_messages, hk, hm, hc, pyIndex]

theorem summarize_ok_none (env : SummarizerEnv) (messages : List Message)
    (k mo e : String) (mos : List String)
    (hk : env.modal_api_key = some k) (hm : env.models_list = Except.ok (mo :: mos))
    (hc : env.chat_completion = Except.error e) :
    summarize_old_messages env messages = Except.ok none := by
  simp [summarize_old_messages, hk, hm, hc, pyIndex]

theorem summarize_some_imp_completion (env : SummarizerEnv) (messages : List Message)
    (s : String)
    (h : summarize_old_messages env messages = Except.ok (some s)) :
    env.chat_completion = Except.ok s := by
  cases hk : env.modal_api_key with
  | none => simp [summarize_old_messages, hk] at h
  | some k =>
    cases hm : env.models_list with
    | error e => simp [summarize_old_messages, hk, hm] at h
    | ok models =>
      cases hpi : pyIndex models 0 with
      | error e => simp [summarize_old_messages, hk, hm, hpi] at h
      | ok m =>
        cases hc : env.chat_completion with
        | ok content =>
          simp [summarize_old_messages, hk, hm, hpi, hc] at h
          simp [hc, h]
        | error e => simp [summarize_old_messages, hk, hm, hpi, hc] at h

/-- Value of the governor on a well-formed history `t :: p :: rest` whose
last step `l` records token usage `u`: trim, then either keep the trimmed
history (usage at or below the threshold, or summary `None`) or replace it
with the single rebuilt task step. -/
theorem smc_eq_of_last (limit u : Nat) (env : SummarizerEnv) (t p : Step)
    (rest : List Step) (l : Step)
    (hl : (t :: p :: rest).getLast? = some l) (hu : l.token_usage = some u) :
    step_memory_cap limit env (t :: p :: rest) =
      if u > limit then
        match summarize_old_messages env (l.model_input_messages.drop 1) with
        | Except.error e => Except.error e
        | Except.ok (some summary) =>
          match pyIndex l.model_input_messages 0 with
          | Except.error e => Except.error e
          | Except.ok first_message =>
            Except.ok
              [{ t with model_input_messages := [first_message, summaryMessage summary] }]
        | Except.ok none => Except.ok (trimmedList t p rest)
      else Except.ok (trimmedList t p rest) := by
  simp only [step_memory_cap, trim_steps_eq, pyLast_trimmedList t p rest l hl, hu,
    pyIndex_trimmedList_zero]

/-- Success path of the governor: usage above threshold, every external
call succeeds, completion text `s`, latest step messages `m0 :: ms` — the
history becomes the single task step rebuilt with
`[m0, summaryMessage s]`. -/
theorem smc_success_eq (limit u : Nat) (env : SummarizerEnv) (t p l : Step)
    (rest : List Step) (s k mo : String) (mos : List String)
    (m0 : Message) (ms : List Message)
    (hl : (t :: p :: rest).getLast? = some l)
    (hu : l.token_usage = some u) (hgt : u > limit)
    (hk : env.modal_api_key = some k)
    (hm : env.models_list = Except.ok (mo :: mos))
    (hc : env.chat_completion = Except.ok s)
    (hms : l.model_input_messages = m0 :: ms) :
    step_memory_cap limit env (t :: p :: rest) =
      Except.ok [{ t with model_input_messages := [m0, summaryMessage s] }] := by
  rw [smc_eq_of_last limit u env t p rest l hl hu, if_pos hgt,
    summarize_ok_some env (l.model_input_messages.drop 1) k mo s mos hk hm hc]
  simp [pyIndex, hms]

/-- Failure path of the governor: usage above threshold, the completion
call raises (the one guarded failure), so the summarizer returns `None`
and the trimmed history is kept. -/
theorem smc_none_eq (limit u : Nat) (env : SummarizerEnv) (t p l : Step)
    (rest : List Step) (k mo e : String) (mos : List String)
    (hl : (t :: p :: rest).getLast? = some l)
    (hu : l.token_usage = some u) (hgt : u > limit)
    (hk : env.modal_api_key = some k)
    (hm : env.models_list = Except.ok (mo :: mos))
    (hc : env.chat_completion = Except.error e) :
    step_memory_cap limit env (t :: p :: rest) = Except.ok (trimmedList t p rest) := by
  rw [smc_eq_of_last limit u env t p rest l hl hu, if_pos hgt,
    summarize_ok_none env (l.model_input_messages.drop 1) k mo e mos hk hm hc]

/-- Low-usage path of the governor: usage at or below the threshold, no
summarization, trimmed history kept. -/
theorem smc_low_eq (limit u : Nat) (env : SummarizerEnv) (t p l : Step)
    (rest : List Step)
    (hl : (t :: p :: rest).getLast? = some l)
    (hu : l.token_usage = some u) (hle : u ≤ limit) :
    step_memory_cap limit env (t :: p :: rest) = Except.ok (trimmedList t p rest) := by
  rw [smc_eq_of_last limit u env t p rest l hl hu, if_neg (Nat.not_lt.mpr hle)]

/-- Claim C2 counterexample: with an empty model roster from the endpoint,
`summarize_old_messages` does **not** return `None` — the roster indexing
`client.models.list().data[0]` sits outside the `try`/`except` and its
`IndexError` escapes the boundary. -/
theorem C2_counterexample :
    summarize_old_messages emptyRosterEnv [] =
      Except.error "IndexError: list index out of range" := rfl

/-- Claim C2 (amended): the summarizer never raises past its boundary on a
failure of the `chat.completions.create` call itself — that error is
caught, logged, and yields `None`.  Errors earlier in the function (API-key
lookup, model-roster retrieval, empty roster) are outside the
`try`/`except` and do propagate, see `C2_counterexample`. -/
theorem C2_completion_error_returns_none (env : SummarizerEnv)
    (messages : List Message) (k mo e : String) (mos : List String)
    (hk : env.modal_api_key = some k)
    (hm : env.models_list = Except.ok (mo :: mos))
    (hc : env.chat_completion = Except.error e) :
    summarize_old_messages env messages = Except.ok none :=
  summarize_ok_none env messages k mo e mos hk hm hc

theorem C2_witness :
    summarize_old_messages completionErrorEnv [] = Except.ok none :=
  C2_completion_error_returns_none completionErrorEnv [] "key" "model-a"
    "APITimeoutError" [] rfl rfl rfl

/-- Claim C1 counterexample: the governor lets an exception escape to the
agent loop.  On a history whose latest step is over the threshold, with the
summarization endpoint unreachable, `client.models.list()` raises outside
any `try`/`except` (in `summarize_old_messages`), and `step_memory_cap`
wraps the summarizer call in no handler either, so the error propagates
instead of leaving the trimmed history. -/
theorem C1_counterexample :
    step_memory_cap 5000 rosterErrorEnv [taskStep, planStep, bigStep] =
      Except.error "APIConnectionError" := rfl

/-- Claim C1 (amended): the governor lets no exception escape provided the
history has at least two steps, the latest step records token usage and has
at least one message, and the unguarded summarizer preliminaries (API-key
lookup, model-roster retrieval with nonempty roster) succeed; under those
conditions a failing completion call degrades to the trimmed history. -/
theorem C1_no_escape_amended (limit u : Nat) (env : SummarizerEnv)
    (t p l : Step) (rest : List Step) (k mo : String) (mos : List String)
    (hl : (t :: p :: rest).getLast? = some l)
    (hu : l.token_usage = some u)
    (hk : env.modal_api_key = some k)
    (hm : env.models_list = Except.ok (mo :: mos))
    (hmsg : l.model_input_messages ≠ []) :
    (∃ res, step_memory_cap limit env (t :: p :: rest) = Except.ok res) ∧
      (∀ e, env.chat_completion = Except.error e →
        step_memory_cap limit env (t :: p :: rest) = trim_steps (t :: p :: rest)) := by
  constructor
  · by_cases hgt : u > limit
    · cases hc : env.chat_completion with
      | ok s =>
        cases hms : l.model_input_messages with
        | nil => exact absurd hms hmsg
        | cons m0 ms =>
          exact ⟨_, smc_success_eq limit u env t p l rest s k mo mos m0 ms
            hl hu hgt hk hm hc hms⟩
      | error e =>
        exact ⟨_, smc_none_eq limit u env t p l rest k mo e mos hl hu hgt hk hm hc⟩
    · exact ⟨_, smc_low_eq limit u env t p l rest hl hu (Nat.not_lt.mp hgt)⟩
  · intro e hc
    rw [trim_steps_eq]
    by_cases hgt : u > limit
    · exact smc_none_eq limit u env t p l rest k mo e mos hl hu hgt hk hm hc
    · exact smc_low_eq limit u env t p l rest hl hu (Nat.not_lt.mp hgt)

theorem C1_witness :
    step_memory_cap 5000 completionErrorEnv [taskStep, planStep, bigStep] =
      trim_steps [taskStep, planStep, bigStep] :=
  (C1_no_escape_amended 5000 6000 completionErrorEnv taskStep planStep bigStep
    [bigStep] "key" "model-a" [] rfl rfl rfl rfl (by decide)).2
    "APITimeoutError" rfl

/-- Claim C5: above the threshold, when the summarizer returns text `s`,
the resulting history is exactly one step whose message list is exactly the
first message of the latest step followed by a user-role message whose text is
exactly `"Here is a summary of your investigation so far: " ++ s`. -/
theorem C5_success_replacement (limit u : Nat) (env : SummarizerEnv)
    (t p l : Step) (rest : List Step) (s k mo : String) (mos : List String)
    (m0 : Message) (ms : List Message)
    (hl : (t :: p :: rest).getLast? = some l)
    (hu : l.token_usage = some u) (hgt : u > limit)
    (hk : env.modal_api_key = some k)
    (hm : env.models_list = Except.ok (mo :: mos))
    (hc : env.chat_completion = Except.ok s)
    (hms : l.model_input_messages = m0 :: ms) :
    step_memory_cap limit env (t :: p :: rest) =
      Except.ok [{ t with model_input_messages := [m0, summaryMessage s] }] ∧
    (summaryMessage s).role = "user" ∧
    (summaryMessage s).content =
      [{ type := "text",
         text := "Here is a summary of your investigation so far: " ++ s }] :=
  ⟨smc_success_eq limit u env t p l rest s k mo mos m0 ms hl hu hgt hk hm hc hms,
    rfl, rfl⟩

theorem C5_witness :
    step_memory_cap 5000 (okEnv "S") [taskStep, planStep, bigStep] =
      Except.ok [{ taskStep with model_input_messages :=
        [sampleMsg "system" "preamble", summaryMessage "S"] }] ∧
    (summaryMessage "S").role = "user" ∧
    (summaryMessage "S").content =
      [{ type := "text",
         text := "Here is a summary of your investigation so far: " ++ "S" }] :=
  C5_success_replacement 5000 6000 (okEnv "S") taskStep planStep bigStep [bigStep]
    "S" "key" "model-a" [] (sampleMsg "system" "preamble")
    [sampleMsg "user" "observation"] rfl rfl (by decide) rfl rfl rfl rfl

/-- Claim C6 counterexample: above the threshold, a summarizer that returns
the **empty** string does not leave the trimmed history — the code only
tests `if summary is not None`, so the empty summary still triggers the
single-step replacement, and the result differs from the trimmed
history. -/
theorem C6_counterexample :
    step_memory_cap 5000 (okEnv "") [taskStep, planStep, bigStep] =
      Except.ok [{ taskStep with model_input_messages :=
        [sampleMsg "system" "preamble", summaryMessage ""] }] ∧
    trim_steps [taskStep, planStep, bigStep] =
      Except.ok [taskStep, planStep, bigStep] ∧
    step_memory_cap 5000 (okEnv "") [taskStep, planStep, bigStep] ≠
      trim_steps [taskStep, planStep, bigStep] := by
  refine ⟨rfl, rfl, fun h => ?_⟩
  have h2 : ([{ taskStep with model_input_messages :=
      [sampleMsg "system" "preamble", summaryMessage ""] }] : List Step) =
      [taskStep, planStep, bigStep] := Except.ok.inj h
  exact absurd h2 (by decide)

/-- Claim C6 (amended): above the threshold, when the summarizer returns an
**absent** result (`None`, i.e. the guarded completion call raised), the
resulting history equals the trimmed history and no exception propagates.
(As literally stated the claim fails twice: an empty-string summary
triggers the replacement, see `C6_counterexample`, and a summarizer that
itself raises — e.g. on model-roster retrieval — propagates the
exception, see `C1_counterexample` for that configuration.) -/
theorem C6_none_keeps_trimmed (limit u : Nat) (env : SummarizerEnv)
    (t p l : Step) (rest : List Step) (k mo e : String) (mos : List String)
    (hl : (t :: p :: rest).getLast? = some l)
    (hu : l.token_usage = some u) (hgt : u > limit)
    (hk : env.modal_api_key = some k)
    (hm : env.models_list = Except.ok (mo :: mos))
    (hc : env.chat_completion = Except.error e) :
    step_memory_cap limit env (t :: p :: rest) = trim_steps (t :: p :: rest) ∧
    step_memory_cap limit env (t :: p :: rest) =
      Except.ok (trimmedList t p rest) := by
  have hres := smc_none_eq limit u env t p l rest k mo e mos hl hu hgt hk hm hc
  exact ⟨by rw [hres, trim_steps_eq], hres⟩

theorem C6_witness :
    step_memory_cap 5000 completionErrorEnv [taskStep, planStep, bigStep] =
      trim_steps [taskStep, planStep, bigStep] ∧
    step_memory_cap 5000 completionErrorEnv [taskStep, planStep, bigStep] =
      Except.ok (trimmedList taskStep planStep [bigStep]) :=
  C6_none_keeps_trimmed 5000 6000 completionErrorEnv taskStep planStep bigStep
    [bigStep] "key" "model-a" "APITimeoutError" [] rfl rfl (by decide) rfl rfl rfl

/-- Claim C10: above the threshold, when the summarizer returns the empty
string (non-absent but empty), the governor still performs the
replacement: one step, two messages, the second a user-role message whose
text is exactly the prefix `"Here is a summary of your investigation so
far: "` followed by nothing.  Only `None`, not emptiness, selects the
keep-trimmed-history path (`if summary is not None`). -/
theorem C10_empty_summary_replaces (limit u : Nat) (env : SummarizerEnv)
    (t p l : Step) (rest : List Step) (k mo : String) (mos : List String)
    (m0 : Message) (ms : List Message)
    (hl : (t :: p :: rest).getLast? = some l)
    (hu : l.token_usage = some u) (hgt : u > limit)
    (hk : env.modal_api_key = some k)
    (hm : env.models_list = Except.ok (mo :: mos))
    (hc : env.chat_completion = Except.ok "")
    (hms : l.model_input_messages = m0 :: ms) :
    step_memory_cap limit env (t :: p :: rest) =
      Except.ok [{ t with model_input_messages := [m0, summaryMessage ""] }] ∧
    (summaryMessage "").role = "user" ∧
    (summaryMessage "").content =
      [{ type := "text",
         text := "Here is a summary of your investigation so far: " }] :=
  ⟨smc_success_eq limit u env t p l rest "" k mo mos m0 ms hl hu hgt hk hm hc hms,
    rfl, rfl⟩

theorem C10_witness :
    step_memory_cap 5000 (okEnv "") [taskStep, planStep, bigStep] =
      Except.ok [{ taskStep with model_input_messages :=
        [sampleMsg "system" "preamble", summaryMessage ""] }] ∧
    (summaryMessage "").role = "user" ∧
    (summaryMessage "").content =
      [{ type := "text",
         text := "Here is a summary of your investigation so far: " }] :=
  C10_empty_summary_replaces 5000 6000 (okEnv "") taskStep planStep bigStep
    [bigStep] "key" "model-a" [] (sampleMsg "system" "preamble")
    [sampleMsg "user" "observation"] rfl rfl (by decide) rfl rfl rfl rfl

/-- Reading `steps[-1].token_usage.total_tokens` raises when `token_usage`
is `None`; the governor propagates that `AttributeError`. -/
theorem smc_usage_none (limit : Nat) (env : SummarizerEnv) (t p : Step)
    (rest : List Step) (l : Step)
    (hl : (t :: p :: rest).getLast? = some l) (hu : l.token_usage = none) :
    step_memory_cap limit env (t :: p :: rest) =
      Except.error "AttributeError: NoneType has no attribute total_tokens" := by
  simp only [step_memory_cap, trim_steps_eq, pyLast_trimmedList t p rest l hl, hu]

/-- Claim C7: after every compaction that completes (both the trim path and
the summarization-replacement path), the step history is nonempty and its
first element is still the step that sat at index 0 before the call — same
`step_number`, same `token_usage`.  (On the replacement path the code keeps
exactly `agent.memory.steps[0]` and overwrites the `model_input_messages`
of that step in place, so the retained object *is* the original
task step, with its message list rewritten as the spec describes.) -/
theorem C7_task_first_retained (limit : Nat) (env : SummarizerEnv)
    (steps res : List Step)
    (h : step_memory_cap limit env steps = Except.ok res) :
    res ≠ [] ∧
    (res.get? 0).map Step.step_number = (steps.get? 0).map Step.step_number ∧
    (res.get? 0).map Step.token_usage = (steps.get? 0).map Step.token_usage := by
  cases steps with
  | nil => exact Except.noConfusion h
  | cons a tail =>
    cases tail with
    | nil => exact Except.noConfusion h
    | cons b rest =>
      obtain ⟨l, hl⟩ := exists_getLast?_cons a (b :: rest)
      cases hu : l.token_usage with
      | none =>
        rw [smc_usage_none limit env a b rest l hl hu] at h
        exact Except.noConfusion h
      | some u =>
        rw [smc_eq_of_last limit u env a b rest l hl hu] at h
        by_cases hgt : u > limit
        · rw [if_pos hgt] at h
          cases hs : summarize_old_messages env (l.model_input_messages.drop 1) with
          | error e => rw [hs] at h; exact Except.noConfusion h
          | ok o =>
            rw [hs] at h
            cases o with
            | none =>
              have hres : trimmedList a b rest = res := Except.ok.inj h
              subst hres
              exact ⟨trimmedList_ne_nil a b rest, by rw [trimmedList_head]; rfl,
                by rw [trimmedList_head]; rfl⟩
            | some s =>
              cases hm0 : pyIndex l.model_input_messages 0 with
              | error e => rw [hm0] at h; exact Except.noConfusion h
              | ok m0 =>
                rw [hm0] at h
                have hres : [{ a with model_input_messages :=
                    [m0, summaryMessage s] }] = res := Except.ok.inj h
                subst hres
                exact ⟨by simp, by simp, by simp⟩
        · rw [if_neg hgt] at h
          have hres : trimmedList a b rest = res := Except.ok.inj h
          subst hres
          exact ⟨trimmedList_ne_nil a b rest, by rw [trimmedList_head]; rfl,
            by rw [trimmedList_head]; rfl⟩

theorem C7_witness :
    ([taskStep, planStep, smallStep] : List Step) ≠ [] ∧
    (([taskStep, planStep, smallStep] : List Step).get? 0).map Step.step_number =
      (([taskStep, planStep, smallStep] : List Step).get? 0).map Step.step_number ∧
    (([taskStep, planStep, smallStep] : List Step).get? 0).map Step.token_usage =
      (([taskStep, planStep, smallStep] : List Step).get? 0).map Step.token_usage :=
  C7_task_first_retained 5000 (okEnv "S") [taskStep, planStep, smallStep]
    [taskStep, planStep, smallStep] rfl

/-- Claim C8 counterexample: on the summarization-replacement path the most
recent step is **not** retained — the code keeps only
`agent.memory.steps[0]` (the task step) and rebuilds its messages, so the
latest step (`bigStep`) is absent from the resulting history. -/
theorem C8_counterexample :
    step_memory_cap 5000 (okEnv "S") [taskStep, planStep, bigStep] =
      Except.ok [{ taskStep with model_input_messages :=
        [sampleMsg "system" "preamble", summaryMessage "S"] }] ∧
    bigStep ∉ ([{ taskStep with model_input_messages :=
        [sampleMsg "system" "preamble", summaryMessage "S"] }] : List Step) :=
  ⟨rfl, by decide⟩

/-- Claim C8 (amended): on every invocation that does not take the
summarization-replacement path — token usage at or below the threshold, or
the summarizer yielding `None` — the most recent step is retained as the
last element of the resulting history, unmutated.  (The replacement path
instead collapses the history to the single rebuilt task step and drops the
latest step, keeping only its first message; see `C8_counterexample`.) -/
theorem C8_latest_retained_amended (limit u : Nat) (env : SummarizerEnv)
    (steps res : List Step) (l : Step)
    (h : step_memory_cap limit env steps = Except.ok res)
    (hl : steps.getLast? = some l)
    (hu : l.token_usage = some u)
    (hcase : u ≤ limit ∨ ∃ e, env.chat_completion = Except.error e) :
    res.getLast? = some l := by
  cases steps with
  | nil => exact Except.noConfusion h
  | cons a tail =>
    cases tail with
    | nil => exact Except.noConfusion h
    | cons b rest =>
      rw [smc_eq_of_last limit u env a b rest l hl hu] at h
      by_cases hgt : u > limit
      · rw [if_pos hgt] at h
        rcases hcase with hle | ⟨e, hc⟩
        · exact absurd hgt (Nat.not_lt.mpr hle)
        · cases hs : summarize_old_messages env (l.model_input_messages.drop 1) with
          | error e2 => rw [hs] at h; exact Except.noConfusion h
          | ok o =>
            rw [hs] at h
            cases o with
            | none =>
              have hres : trimmedList a b rest = res := Except.ok.inj h
              subst hres
              rw [trimmedList_getLast?]
              exact hl
            | some s =>
              have hcs := summarize_some_imp_completion env
                (l.model_input_messages.drop 1) s hs
              rw [hc] at hcs
              exact Except.noConfusion hcs
      · rw [if_neg hgt] at h
        have hres : trimmedList a b rest = res := Except.ok.inj h
        subst hres
        rw [trimmedList_getLast?]
        exact hl

theorem C8_witness :
    ([taskStep, planStep, smallStep] : List Step).getLast? = some smallStep :=
  C8_latest_retained_amended 5000 1000 (okEnv "S")
    [taskStep, planStep, smallStep] [taskStep, planStep, smallStep] smallStep
    rfl rfl rfl (Or.inl (by decide))

theorem agentPy_summarize_eq :
    AgentPy.summarize_old_messages = summarize_old_messages := rfl

/-- The two transcriptions of the governor coincide for every threshold,
environment and history. -/
theorem agentPy_eq_helper (limit : Nat) (env : SummarizerEnv)
    (steps : List Step) :
    AgentPy.step_memory_cap limit env steps = step_memory_cap limit env steps := by
  unfold AgentPy.step_memory_cap step_memory_cap trim_steps
  rw [agentPy_summarize_eq]
  cases h0 : pyIndex steps 0 with
  | error e => rfl
  | ok t =>
    cases h1 : pyIndex steps 1 with
    | error e => rfl
    | ok p =>
      cases h2 : pyLast steps with
      | error e => rfl
      | ok l =>
        by_cases hlen : steps.length > 2
        · simp only [if_pos hlen]
        · simp only [if_neg hlen]

/-- The result of the governor depends on the threshold only through the test
`token_usage > threshold` on the latest step. -/
theorem smc_threshold_congr (lim1 lim2 : Nat) (env : SummarizerEnv)
    (steps : List Step) (l : Step) (u : Nat)
    (hl : steps.getLast? = some l) (hu : l.token_usage = some u)
    (hiff : u > lim1 ↔ u > lim2) :
    step_memory_cap lim1 env steps = step_memory_cap lim2 env steps := by
  cases steps with
  | nil => rfl
  | cons a tail =>
    cases tail with
    | nil => rfl
    | cons b rest =>
      rw [smc_eq_of_last lim1 u env a b rest l hl hu,
          smc_eq_of_last lim2 u env a b rest l hl hu]
      by_cases hgt : u > lim1
      · rw [if_pos hgt, if_pos (hiff.mp hgt)]
      · rw [if_neg hgt, if_neg (fun hx => hgt (hiff.mpr hx))]

/-- Claim C9 (amended): the two copies of the governor produce identical
results once their threshold constants are instantiated to the same value;
as shipped (`TOKEN_LIMITER = 5000` in the helper module, the literal
`50000` in `agent.py`), the two copies agree on every input whose
latest-step token usage lies outside the band `5000 < u ≤ 50000` — they
**can** differ only inside that band, and even there they agree whenever
the summarizer yields no summary (see `C9_counterexample`). -/
theorem C9_copies_amended :
    (∀ (limit : Nat) (env : SummarizerEnv) (steps : List Step),
        AgentPy.step_memory_cap limit env steps = step_memory_cap limit env steps) ∧
    (∀ (env : SummarizerEnv) (steps : List Step) (l : Step) (u : Nat),
        steps.getLast? = some l → l.token_usage = some u →
        u ≤ TOKEN_LIMITER ∨ 50000 < u →
        step_memory_cap TOKEN_LIMITER env steps =
          AgentPy.step_memory_cap 50000 env steps) := by
  refine ⟨agentPy_eq_helper, fun env steps l u hl hu hcase => ?_⟩
  rw [agentPy_eq_helper]
  apply smc_threshold_congr TOKEN_LIMITER 50000 env steps l u hl hu
  rcases hcase with hle | hgt
  · exact iff_of_false (Nat.not_lt.mpr hle)
      (Nat.not_lt.mpr (le_trans hle (by decide)))
  · exact iff_of_true (lt_trans (by decide) hgt) hgt

/-- Claim C9 counterexample: the shipped copies do **not** differ exactly
on the band `5000 < u ≤ 50000`.  At usage 6000 (inside the band) with the
completion call failing, the helper-module governor summarizes, gets
`None`, and keeps the trimmed history — exactly what the `agent.py`
governor (which never summarizes at 6000) produces, so the two agree at a
band input. -/
theorem C9_counterexample :
    5000 < 6000 ∧ 6000 ≤ 50000 ∧
    bigStep.token_usage = some 6000 ∧
    step_memory_cap TOKEN_LIMITER completionErrorEnv
        [taskStep, planStep, bigStep] =
      AgentPy.step_memory_cap 50000 completionErrorEnv
        [taskStep, planStep, bigStep] :=
  ⟨by decide, by decide, rfl, rfl⟩

theorem C9_witness :
    step_memory_cap TOKEN_LIMITER completionErrorEnv
        [taskStep, planStep, smallStep] =
      AgentPy.step_memory_cap 50000 completionErrorEnv
        [taskStep, planStep, smallStep] :=
  C9_copies_amended.2 completionErrorEnv [taskStep, planStep, smallStep]
    smallStep 1000 rfl rfl (Or.inl (by decide))
